import Mathlib

/-!
Shallow embedding of the student-assistant retrieval-augmented answer
pipeline: `RAGService` (backend/app/services/rag_service.py), the durable
conversation store (`backend/app/core/conversation_manager.py`) and the
conversation-store side of the `/ask` endpoint (`backend/app/api/routes.py`).

External capabilities (the embedding model + vector index, the hosted LLM,
and the random choice among canned greeting replies) are parameters of an
`Env` record; fallible calls return `Except`.  The per-turn pipeline `ask`
additionally returns an `AskTrace` recording which capabilities were invoked
with which arguments, mirroring the spec's "call-count assertions against
stub capabilities".
-/

namespace StudentAssistant

/-- Python `str.lower()`, character by character (ASCII case fold, which is
all the keyword matching of this code base exercises). -/
def pyLower (s : String) : String := ⟨s.data.map Char.toLower⟩

/-- Python `str.strip()`: drop whitespace from both ends. -/
def pyTrim (s : String) : String :=
  ⟨((s.data.dropWhile Char.isWhitespace).reverse.dropWhile Char.isWhitespace).reverse⟩

/-- Python `s[:n]`: the first `n` characters. -/
def pyTake (s : String) (n : Nat) : String := ⟨s.data.take n⟩

/-- Helper for `pySplit`: split on whitespace, accumulating the current word
in reverse. -/
def splitWsAux : List Char → List Char → List String
  | [], acc => if acc.isEmpty then [] else [⟨acc.reverse⟩]
  | c :: rest, acc =>
    if c.isWhitespace then
      if acc.isEmpty then splitWsAux rest []
      else ⟨acc.reverse⟩ :: splitWsAux rest []
    else splitWsAux rest (c :: acc)

/-- Python `str.split()` with no separator: split on runs of whitespace and
drop empty pieces. -/
def pySplit (s : String) : List String := splitWsAux s.data []

/-- Substring containment on character lists (Python's `needle in hay`). -/
def hasSub (needle : List Char) : List Char → Bool
  | [] => needle.isEmpty
  | c :: rest => needle.isPrefixOf (c :: rest) || hasSub needle rest

/-- Python `needle in hay` for strings. -/
def containsSub (needle hay : String) : Bool := hasSub needle.data hay.data

/-- One question/answer pair of the in-process conversation memory. -/
structure Exchange where
  question : String
  answer : String
deriving Repr, DecidableEq, Inhabited

/-- Source metadata attached to an indexed chunk. -/
structure DocMeta where
  source : String
  category : String
deriving Repr, DecidableEq, Inhabited

/-- One raw hit returned by the vector index: text, metadata, distance. -/
structure QueryHit where
  text : String
  metadata : DocMeta
  distance : ℚ
deriving Repr, DecidableEq, Inhabited

/-- A formatted retrieved document: text, metadata, derived score. -/
structure RetrievedDoc where
  text : String
  metadata : DocMeta
  score : ℚ
deriving Repr, DecidableEq, Inhabited

/-- One element of the `sources` list returned by `ask`. -/
structure SourceView where
  source : String
  category : String
  score : ℚ
deriving Repr, DecidableEq, Inhabited

/-- The external capabilities `RAGService` consumes: the vector-index query
(embedding + ChromaDB `collection.query`, taking `n_results` and the optional
`where` category filter, and which may fail), the hosted LLM chat completion
(taking the prompt and `max_tokens`, and which may fail), and the
`random.choice` among canned greeting replies. -/
structure Env where
  collectionQuery : Nat → Option String → Except String (List QueryHit)
  llmChat : String → Nat → Except String String
  choose : List String → String

/-- The per-category keyword lists of `RAGService._detect_category`. -/
def categoryKeywords : List (String × List String) :=
  [("emploi_temps",
    ["emploi du temps", "calendrier", "horaire", "planning",
     "quand commence", "début", "fin semestre", "vacances",
     "cours", "séance", "date examen", "rentrée"]),
   ("reglements",
    ["règlement", "règle", "charte", "interdit", "autorisé",
     "absence", "retard", "sanction", "discipline",
     "droit", "obligation", "infraction"]),
   ("procedures",
    ["inscription", "comment", "procédure", "démarche",
     "documents", "dossier", "attestation", "certificat",
     "s'inscrire", "demande", "formulaire"]),
   ("faqs",
    ["faq", "question fréquente", "aide", "information",
     "contact", "où trouver", "qui contacter"])]

/-- Python `max(xs, key=...)` over a nonempty association list: the first
element attaining the maximal value (a later element replaces the current
best only when strictly greater). -/
def maxBySnd (x : String × Nat) (xs : List (String × Nat)) : String × Nat :=
  xs.foldl (fun best y => if best.2 < y.2 then y else best) x

/-- The `scores` dict of `_detect_category`: one entry per category whose
keyword-hit count in the lower-cased query is positive, in declaration
(= dict insertion) order. -/
def categoryScores (query : String) : List (String × Nat) :=
  categoryKeywords.filterMap (fun ck =>
    let s := (ck.2.filter (fun k => containsSub k (pyLower query))).length
    if 0 < s then some (ck.1, s) else none)

/-- `RAGService._detect_category`: count keyword hits per category in the
lower-cased query; return the category with the most hits (first wins on
ties, following dict insertion order), or none when no keyword matches. -/
def detect_category (query : String) : Option String :=
  match categoryScores query with
  | [] => none
  | x :: xs => some (maxBySnd x xs).1

/-- Scores the index distances as `RAGService.retrieve_documents` formats
them: `score = 1 / (1 + |distance|)`. -/
def formatHits (hits : List QueryHit) : List RetrievedDoc :=
  hits.map (fun h => ⟨h.text, h.metadata, 1 / (1 + |h.distance|)⟩)

/-- The `where` filter `retrieve_documents` hands to the index: the explicit
category override when truthy, else the detected category; a falsy category
or the sentinel "all" yields no filter. -/
def whereFilterOf (query : String) (categoryFilter : Option String) : Option String :=
  let cf := match categoryFilter with
    | some c => if c = "" then detect_category query else some c
    | none => detect_category query
  match cf with
  | some c => if c ≠ "" ∧ c ≠ "all" then some c else none
  | none => none

/-- `RAGService.retrieve_documents`: query the index for `n_results * 2`
filtered candidates and truncate to `n_results`; on failure retry once with
exactly `n_results` results and no filter; a second failure propagates (the
bare `collection.query` of the fallback path is outside the `try`).  Also
returns the log of index queries `(n_results, where)` issued, oldest first. -/
def retrieve_documents (env : Env) (query : String) (nResults : Nat)
    (categoryFilter : Option String) :
    Except String (List RetrievedDoc) × List (Nat × Option String) :=
  let whereFilter := whereFilterOf query categoryFilter
  match env.collectionQuery (nResults * 2) whereFilter with
  | .ok hits =>
      (.ok ((formatHits hits).take nResults), [(nResults * 2, whereFilter)])
  | .error _ =>
      match env.collectionQuery nResults none with
      | .ok hits =>
          (.ok (formatHits hits), [(nResults * 2, whereFilter), (nResults, none)])
      | .error e =>
          (.error e, [(nResults * 2, whereFilter), (nResults, none)])

/-- The fixed pronoun list of `RAGService.reformulate_query`. -/
def pronouns : List String := ["il", "elle", "ça", "cela", "ils", "elles"]

/-- The reformulation prompt `reformulate_query` builds from the last
exchange (answer truncated to 200 characters) and the follow-up question. -/
def reformulationPrompt (last : Exchange) (query : String) : String :=
  "Tu dois reformuler une question de suivi pour la rendre explicite.\n" ++
  "        Contexte de la conversation précédente :\n" ++
  "        Question précédente : " ++ last.question ++ "\n" ++
  "        Réponse donnée : " ++ pyTake last.answer 200 ++ "\n" ++
  "        Question de suivi (vague) : " ++ query ++ "\n" ++
  "        Ta tâche : Reformuler cette question de suivi pour qu'elle soit explicite et autonome.\n" ++
  "        Ne réponds PAS à la question, reformule-la seulement.\n" ++
  "        Exemple :\n" ++
  "        Contexte : \"Quand commence le semestre d'automne ?\"\n" ++
  "        Question : \"Et combien de temps dure-t-il ?\"\n" ++
  "        Reformulé : \"Combien de temps dure le semestre d'automne ?\"\n\n" ++
  "        Reformulation (une seule phrase, sans explication) :"

/-- `RAGService.reformulate_query`: return the question unchanged when there
is no history, or when it bears no pronoun and has more than 5 words;
otherwise ask the LLM (max_tokens 50) to rewrite it, falling back to the
original question when that call fails.  The boolean reports whether the LLM
reformulation call was made. -/
def reformulate_query (env : Env) (hist : List Exchange) (query : String) :
    String × Bool :=
  if hist.isEmpty then (query, false)
  else
    let isFollowup := pronouns.any (fun p => containsSub p (pyLower query))
    if isFollowup = false ∧ 5 < (pySplit query).length then (query, false)
    else
      match env.llmChat (reformulationPrompt (hist.getLastD default) query) 50 with
      | .ok r => (pyTrim r, true)
      | .error _ => (query, true)

/-- The fixed greeting / politeness phrase list of `RAGService.is_greeting`. -/
def simplePhrases : List String :=
  ["bonjour", "salut", "hello", "hi", "hey", "coucou", "bonsoir",
   "merci", "thanks", "thank you", "d'accord", "ok", "okay",
   "au revoir", "bye", "à bientôt", "à plus",
   "oui", "non", "bien", "super", "cool", "parfait", "génial"]

/-- `RAGService.is_greeting`: a question of at most 3 whitespace-separated
tokens that contains one of the fixed phrases (after lower-casing and
stripping). -/
def is_greeting (question : String) : Bool :=
  let ql := pyTrim (pyLower question)
  if (pySplit ql).length ≤ 3 then
    simplePhrases.any (fun p => containsSub p ql)
  else false

/-- `RAGService.handle_greeting`: pick a canned reply fitting the kind of
greeting; `Env.choose` stands for `random.choice`. -/
def handle_greeting (env : Env) (question : String) : String :=
  let ql := pyTrim (pyLower question)
  let responses :=
    if ["merci", "thanks", "thank you"].any (fun w => containsSub w ql) then
      ["De rien ! 😊 N'hésitez pas si vous avez d'autres questions.",
       "Avec plaisir ! Je suis là pour vous aider.",
       "Heureux de vous aider ! Autre chose ?"]
    else if ["au revoir", "bye", "à bientôt", "à plus"].any (fun w => containsSub w ql) then
      ["À bientôt ! Bonne journée ! 👋",
       "Au revoir ! N'hésitez pas à revenir si besoin.",
       "À plus tard ! Bonne continuation dans vos études ! 🎓"]
    else if ["ok", "okay", "d'accord", "bien", "parfait"].any (fun w => containsSub w ql) then
      ["Super ! Autre question ?",
       "Parfait ! Comment puis-je vous aider d'autre ?",
       "D'accord ! N'hésitez pas pour d'autres questions."]
    else
      ["Bonjour ! 👋 Je suis l'assistant virtuel de l'UM5. Comment puis-je vous aider ?",
       "Salut ! 😊 Posez-moi vos questions sur les emplois du temps, règlements et procédures.",
       "Bonjour ! Bienvenue ! Que souhaitez-vous savoir sur l'UM5 ?"]
  env.choose responses

/-- The `[Document i - source]` context block of `generate_prompt`. -/
def docContext (documents : List RetrievedDoc) : String :=
  (List.enumFrom 1 documents).foldl (fun acc p =>
    acc ++ "\n[Document " ++ toString p.1 ++ " - " ++ p.2.metadata.source ++ "]\n"
        ++ p.2.text ++ "\n" ++ String.mk (List.replicate 60 '-') ++ "\n") ""

/-- The recent-history block of `generate_prompt`: the last 3 exchanges,
answers truncated to 100 characters, only when `include_history` is set and
history is nonempty. -/
def historyContext (hist : List Exchange) (includeHistory : Bool) : String :=
  if includeHistory && !hist.isEmpty then
    (List.enumFrom 1 (hist.drop (hist.length - 3))).foldl (fun acc p =>
      acc ++ "Q" ++ toString p.1 ++ ": " ++ p.2.question ++ "\n"
          ++ "R" ++ toString p.1 ++ ": " ++ pyTake p.2.answer 100 ++ "...\n\n")
      "\n\nÉchanges précédents :\n"
  else ""

/-- `RAGService.generate_prompt`: deterministic assembly of the reinforced
anti-hallucination prompt around the (original) question, the retrieved
documents and the recent history. -/
def generate_prompt (query : String) (documents : List RetrievedDoc)
    (includeHistory : Bool) (hist : List Exchange) : String :=
  let context := docContext documents
  let history_context := historyContext hist includeHistory
  "Tu es un assistant de l'UM5. Tu dois être TRÈS PRUDENT et NE JAMAIS inventer d'informations.\n\n" ++
  "    CONTEXTE :\n    Tu as accès à des documents officiels limités.\n    " ++
  history_context ++ "\n\n    DOCUMENTS DISPONIBLES :\n    " ++ context ++ "\n\n" ++
  "    ⚠️ RÈGLES CRITIQUES - À RESPECTER ABSOLUMENT :\n\n" ++
  "    1. SALUTATIONS (bonjour, merci, ok, au revoir) :\n" ++
  "    → Réponds poliment SANS utiliser les documents\n\n" ++
  "    2. QUESTIONS NÉCESSITANT RECHERCHE :\n" ++
  "    → Utilise UNIQUEMENT les informations EXPLICITES dans les documents ci-dessus\n" ++
  "    → Si l'information N'EST PAS EXPLICITEMENT dans les documents, tu DOIS dire :\n" ++
  "        \"Je n'ai pas cette information dans ma base de connaissances. Je vous conseille de contacter [service concerné].\"\n    \n" ++
  "    3. NE JAMAIS :\n" ++
  "    ❌ Inventer des URLs, emails, numéros de téléphone\n" ++
  "    ❌ Inventer des procédures non mentionnées\n" ++
  "    ❌ Extrapoler ou déduire des informations\n" ++
  "    ❌ Donner des infos générales si la question est spécifique\n    \n" ++
  "    4. STYLE :\n" ++
  "    ✅ Concis (2-3 phrases max)\n" ++
  "    ✅ Citer la source : \"Selon [Document X]...\"\n" ++
  "    ✅ Si incomplet : \"Les documents ne précisent pas... Je vous conseille de...\"\n\n" ++
  "    QUESTION :\n    " ++ query ++ "\n\n" ++
  "    RÉPONSE (prudente, précise, citée) :\n    \n" ++
  "    CONTACTS UTILES (à mentionner si info manquante) :\n" ++
  "    - Service scolarité de votre faculté\n" ++
  "    - Plateforme de préinscription : https://preinscription.um5.ac.ma\n" ++
  "    - Site officiel UM5 : https://www.um5.ac.ma"

/-- `RAGService.generate_answer`: one LLM call; on failure the error text is
embedded in a user-visible string instead of raising. -/
def generate_answer (env : Env) (prompt : String) (maxTokens : Nat) : String :=
  match env.llmChat prompt maxTokens with
  | .ok answer => pyTrim answer
  | .error e => "Erreur lors de la génération : " ++ e

/-- `RAGService.max_history`: the conversation-memory capacity. -/
def max_history : Nat := 5

/-- `RAGService.add_to_history`: append the exchange, then pop the oldest
entry when the history exceeds `max_history`. -/
def add_to_history (hist : List Exchange) (question answer : String) :
    List Exchange :=
  let h := hist ++ [⟨question, answer⟩]
  if max_history < h.length then h.drop 1 else h

/-- `RAGService.clear_history`: empty the conversation memory. -/
def clear_history (_hist : List Exchange) : List Exchange := []

/-- An operation on the conversation memory. -/
inductive MemOp
  | add (question answer : String)
  | clear

/-- Run one memory operation. -/
def applyOp (hist : List Exchange) : MemOp → List Exchange
  | .add q a => add_to_history hist q a
  | .clear => clear_history hist

/-- Run a sequence of memory operations, oldest first. -/
def applyOps (hist : List Exchange) (ops : List MemOp) : List Exchange :=
  ops.foldl applyOp hist

/-- The dictionary `RAGService.ask` returns. -/
structure AskResult where
  question : String
  answer : String
  sources : List SourceView
  reformulated_query : Option String
  is_greeting : Bool
deriving Repr, DecidableEq, Inhabited

/-- Which steps of one `ask` turn ran, and with which arguments: the
observations a stub-capability test harness would record. -/
structure AskTrace where
  reformulatorInvoked : Bool
  retrieverInvoked : Bool
  retrievalQuery : Option String
  queryLog : List (Nat × Option String)
  promptQuestion : Option String
  generatorInvoked : Bool
  memoryUpdated : Bool
deriving Repr, DecidableEq, Inhabited

/-- `RAGService.ask`: the full pipeline over the session's conversation
memory `hist`.  Greetings short-circuit to a canned reply; otherwise the
question is (possibly) reformulated, documents retrieved with the search
query, the prompt built from the original question, the answer generated,
and the memory updated when `use_history` is set.  A retrieval failure
propagates (`.error`); the new memory is part of the `.ok` payload. -/
def ask (env : Env) (hist : List Exchange) (question : String)
    (nResults : Nat) (useHistory : Bool) :
    Except String (AskResult × List Exchange) × AskTrace :=
  if is_greeting question then
    (.ok ({ question := question, answer := handle_greeting env question,
            sources := [], reformulated_query := none, is_greeting := true },
          hist),
     { reformulatorInvoked := false, retrieverInvoked := false,
       retrievalQuery := none, queryLog := [], promptQuestion := none,
       generatorInvoked := false, memoryUpdated := false })
  else
    let rq := if useHistory && !hist.isEmpty
              then reformulate_query env hist question
              else (question, false)
    let searchQuery := rq.1
    match retrieve_documents env searchQuery nResults none with
    | (.error e, log) =>
        (.error e,
         { reformulatorInvoked := rq.2, retrieverInvoked := true,
           retrievalQuery := some searchQuery, queryLog := log,
           promptQuestion := none, generatorInvoked := false,
           memoryUpdated := false })
    | (.ok documents, log) =>
        let prompt := generate_prompt question documents useHistory hist
        let answer := generate_answer env prompt 200
        let hist2 := if useHistory then add_to_history hist question answer
                     else hist
        let sources := documents.map (fun d =>
          ({ source := d.metadata.source, category := d.metadata.category,
             score := d.score } : SourceView))
        (.ok ({ question := question, answer := answer, sources := sources,
                reformulated_query :=
                  if searchQuery = question then none else some searchQuery,
                is_greeting := false },
              hist2),
         { reformulatorInvoked := rq.2, retrieverInvoked := true,
           retrievalQuery := some searchQuery, queryLog := log,
           promptQuestion := some question, generatorInvoked := true,
           memoryUpdated := useHistory })

/-- One persisted message of a durable conversation (the random `msg_` id
and the wall-clock timestamp of the source carry no information a claim
depends on and are elided). -/
structure Message where
  role : String
  content : String
  sources : List SourceView
deriving Repr, DecidableEq, Inhabited

/-- A durable conversation file: its stored id, messages in insertion order
and the `message_count` metadata. -/
structure Conversation where
  id : String
  messages : List Message
  message_count : Nat
deriving Repr, DecidableEq, Inhabited

/-- The conversations directory: one JSON file per conversation id. -/
abbrev ConvStore := List (String × Conversation)

/-- `ConversationManager.load_conversation`: read the file for this id. -/
def load_conversation (store : ConvStore) (convId : String) :
    Option Conversation :=
  (store.find? (fun p => p.1 = convId)).map Prod.snd

/-- `ConversationManager._save_conversation`: write (overwrite) the file for
this id. -/
def save_conversation (store : ConvStore) (convId : String)
    (data : Conversation) : ConvStore :=
  if store.any (fun p => p.1 = convId) then
    store.map (fun p => if p.1 = convId then (convId, data) else p)
  else store ++ [(convId, data)]

/-- `ConversationManager.create_conversation`: save an empty conversation
under a freshly generated `conv_<uuid>` name (`freshId` stands for the
generated value) and return its id. -/
def create_conversation (store : ConvStore) (freshId : String) :
    ConvStore × String :=
  (save_conversation store freshId
    { id := freshId, messages := [], message_count := 0 }, freshId)

/-- `ConversationManager.add_message`: load the conversation; on a miss,
create one under a fresh random id and reload the requested id.  When that
reload still misses, the source's `conversation['messages'].append` raises a
TypeError on `None` — the `.error` branch.  Otherwise append the message,
refresh `message_count` and save under the requested id. -/
def add_message (store : ConvStore) (freshId : String) (convId : String)
    (role content : String) (sources : List SourceView) :
    Except Unit ConvStore :=
  let loaded : Option (ConvStore × Conversation) :=
    match load_conversation store convId with
    | some conv => some (store, conv)
    | none =>
        let store1 := (create_conversation store freshId).1
        match load_conversation store1 convId with
        | some conv => some (store1, conv)
        | none => none
  match loaded with
  | none => .error ()
  | some (st, conv) =>
      let msgs := conv.messages ++ [⟨role, content, sources⟩]
      .ok (save_conversation st convId
        { conv with messages := msgs, message_count := msgs.length })

/-- The conversation-store side effects of one `/ask` request
(`routes.ask_question`): create a conversation when the session id has none
on file, persist the user message, run the turn, persist the assistant
message.  `fresh1`/`fresh2`/`fresh3` stand for the random ids generated along
the way; `answer`/`sources` are the turn's output; an exception anywhere
aborts the request (HTTP 500), leaving the store as already written. -/
def ask_endpoint_store (store : ConvStore) (sessionId : String)
    (fresh1 fresh2 fresh3 : String) (question answer : String)
    (sources : List SourceView) : Except Unit ConvStore :=
  let store1 := if (load_conversation store sessionId).isNone
                then (create_conversation store fresh1).1 else store
  match add_message store1 fresh2 sessionId "user" question [] with
  | .error e => .error e
  | .ok store2 => add_message store2 fresh3 sessionId "assistant" answer sources

/-- A stub environment whose index returns no hits and whose LLM answers a
fixed string: the healthy-capabilities test double. -/
def env0 : Env where
  collectionQuery := fun _ _ => .ok []
  llmChat := fun _ _ => .ok "Réponse."
  choose := fun rs => rs.headD ""

/-- A stub environment whose vector index fails every query. -/
def envDown : Env where
  collectionQuery := fun _ _ => .error "index indisponible"
  llmChat := fun _ _ => .ok "Réponse."
  choose := fun rs => rs.headD ""

/-- A stub environment whose LLM fails every call (reformulation and
generation alike) while the index works. -/
def envLlmDown : Env where
  collectionQuery := fun _ _ => .ok []
  llmChat := fun _ _ => .error "timeout"
  choose := fun rs => rs.headD ""

/-- A stub environment whose LLM always answers with a fixed rewritten
question, so reformulation visibly changes the search query. -/
def envRewrite : Env where
  collectionQuery := fun _ _ =>
    .ok [{ text := "Le semestre dure 14 semaines.",
           metadata := { source := "calendrier.pdf", category := "emploi_temps" },
           distance := 0 }]
  llmChat := fun _ _ => .ok "Combien de temps dure le semestre d'automne ?"
  choose := fun rs => rs.headD ""

/-- The fold behind `maxBySnd` yields its seed or one of the list elements. -/
theorem maxBySnd_mem (x : String × Nat) (xs : List (String × Nat)) :
    maxBySnd x xs ∈ x :: xs := by
  induction xs generalizing x with
  | nil => simp [maxBySnd]
  | cons y ys ih =>
    have hstep : maxBySnd x (y :: ys) =
        maxBySnd (if x.2 < y.2 then y else x) ys := rfl
    rw [hstep]
    rcases List.mem_cons.mp (ih (if x.2 < y.2 then y else x)) with h1 | h1
    · rw [h1]
      split <;> simp
    · simp [h1]

/-- Every entry of the `scores` dict carries one of the four keyword-table
category names. -/
theorem categoryScores_mem {q : String} {cs : String × Nat}
    (h : cs ∈ categoryScores q) :
    cs.1 ∈ ["emploi_temps", "reglements", "procedures", "faqs"] := by
  unfold categoryScores at h
  rcases List.mem_filterMap.mp h with ⟨ck, hck, hf⟩
  dsimp only at hf
  have h1 : cs.1 = ck.1 := by
    split at hf
    · cases hf
      rfl
    · cases hf
  rw [h1]
  fin_cases hck <;> simp

/-- The conversation-memory append keeps the length within capacity. -/
theorem add_to_history_length_le {hist : List Exchange}
    (h : hist.length ≤ 5) (q a : String) :
    (add_to_history hist q a).length ≤ 5 := by
  unfold add_to_history max_history
  dsimp only
  split
  · simpa using h
  · next hlt =>
      simp only [not_lt, List.length_append, List.length_cons,
        List.length_nil] at hlt ⊢
      omega

/-- Any operation sequence keeps the memory within capacity. -/
theorem applyOps_length_le (ops : List MemOp) :
    ∀ hist : List Exchange, hist.length ≤ 5 →
      (applyOps hist ops).length ≤ 5 := by
  induction ops with
  | nil => intro hist h; exact h
  | cons op ops ih =>
      intro hist h
      have hstep : applyOps hist (op :: ops) = applyOps (applyOp hist op) ops := rfl
      rw [hstep]
      apply ih
      cases op with
      | add q a => exact add_to_history_length_le h q a
      | clear => simp [applyOp, clear_history]

/-- C7: Conversation Memory is a bounded FIFO of capacity 5: six successive
adds leave exactly the last five exchanges (the oldest evicted), `clear`
empties the memory, and no sequence of add/clear operations ever grows it
past 5. -/
theorem c7_memory_fifo :
    (∀ e1 e2 e3 e4 e5 e6 : Exchange,
      applyOps [] ([e1, e2, e3, e4, e5, e6].map
          (fun e => MemOp.add e.question e.answer)) = [e2, e3, e4, e5, e6] ∧
      (applyOps [] ([e1, e2, e3, e4, e5, e6].map
          (fun e => MemOp.add e.question e.answer))).length = 5) ∧
    (∀ hist : List Exchange, clear_history hist = []) ∧
    (∀ ops : List MemOp, (applyOps [] ops).length ≤ 5) := by
  refine ⟨fun e1 e2 e3 e4 e5 e6 => ?_, fun _ => rfl,
    fun ops => applyOps_length_le ops [] (by simp)⟩
  constructor
  · simp [applyOps, applyOp, add_to_history, max_history]
  · simp [applyOps, applyOp, add_to_history, max_history]

/-- C4 counterexample: the query "calendrier" is classified as
"emploi_temps", which is not a member of the spec's five-name vocabulary
(schedule, regulations, procedures, faqs, notes). -/
theorem c4_category_vocabulary_counterexample :
    detect_category "calendrier" = some "emploi_temps" ∧
    "emploi_temps" ∉ (["schedule", "regulations", "procedures", "faqs",
                       "notes"] : List String) := by
  refine ⟨by decide, by decide⟩

/-- C4 (amended): for every query the Category Classifier returns none or a
member of the code's four-name vocabulary emploi_temps, reglements,
procedures, faqs. -/
theorem c4_category_vocabulary (q : String) :
    detect_category q = none ∨
    detect_category q ∈ [some "emploi_temps", some "reglements",
                         some "procedures", some "faqs"] := by
  unfold detect_category
  rcases hs : categoryScores q with _ | ⟨x, xs⟩
  · exact Or.inl rfl
  · refine Or.inr ?_
    have hm : maxBySnd x xs ∈ categoryScores q := by
      rw [hs]; exact maxBySnd_mem x xs
    have hmem := categoryScores_mem hm
    simp only [List.mem_cons, List.not_mem_nil, or_false] at hmem ⊢
    rcases hmem with h | h | h | h <;> simp [h]

/-- C3: on the first use of a session id the `/ask` endpoint does not bring
a conversation keyed by that id into existence: the two conversations it
creates are keyed by fresh random `conv_` ids, the reload of the session id
still misses, and the message append crashes the request. -/
theorem c3_conversation_creation_bug :
    ask_endpoint_store [] "sess-41" "conv_1f2a" "conv_9b3c" "conv_77de"
        "Quand commence le semestre ?" "Le 18 septembre." [] = .error () ∧
    add_message ((create_conversation ([] : ConvStore) "conv_1f2a").1)
        "conv_9b3c" "sess-41" "user" "Quand commence le semestre ?" []
      = .error () ∧
    load_conversation
        ((create_conversation
          ((create_conversation ([] : ConvStore) "conv_1f2a").1) "conv_9b3c").1)
        "sess-41" = none := by
  refine ⟨rfl, rfl, rfl⟩

/-- Unfolding `ask` on a greeting turn. -/
theorem ask_greeting_eq (env : Env) (hist : List Exchange) (q : String)
    (n : Nat) (uh : Bool) (hg : is_greeting q = true) :
    ask env hist q n uh =
      (.ok ({ question := q, answer := handle_greeting env q, sources := [],
              reformulated_query := none, is_greeting := true }, hist),
       { reformulatorInvoked := false, retrieverInvoked := false,
         retrievalQuery := none, queryLog := [], promptQuestion := none,
         generatorInvoked := false, memoryUpdated := false }) := by
  unfold ask
  rw [hg]
  rfl

/-- Unfolding `ask` on a non-greeting turn, once the reformulation step's
outcome `(sq, b)` is known. -/
theorem ask_nongreeting_eq (env : Env) (hist : List Exchange) (q sq : String)
    (b : Bool) (n : Nat) (uh : Bool) (hg : is_greeting q = false)
    (hrq : (if uh && !hist.isEmpty then reformulate_query env hist q
            else (q, false)) = (sq, b)) :
    ask env hist q n uh =
      match retrieve_documents env sq n none with
      | (.error e, log) =>
          (.error e,
           { reformulatorInvoked := b, retrieverInvoked := true,
             retrievalQuery := some sq, queryLog := log,
             promptQuestion := none, generatorInvoked := false,
             memoryUpdated := false })
      | (.ok documents, log) =>
          (.ok ({ question := q,
                  answer := generate_answer env
                    (generate_prompt q documents uh hist) 200,
                  sources := documents.map (fun d =>
                    ({ source := d.metadata.source,
                       category := d.metadata.category,
                       score := d.score } : SourceView)),
                  reformulated_query :=
                    if sq = q then none else some sq,
                  is_greeting := false },
                if uh then add_to_history hist q
                  (generate_answer env (generate_prompt q documents uh hist) 200)
                else hist),
           { reformulatorInvoked := b, retrieverInvoked := true,
             retrievalQuery := some sq, queryLog := log,
             promptQuestion := some q, generatorInvoked := true,
             memoryUpdated := uh }) := by
  unfold ask
  rw [hg, hrq]
  rfl

/-- C1: for every question of at most 3 whitespace-separated tokens that
contains a phrase from the fixed greeting/politeness list, `ask` returns
is_greeting true, no sources and no reformulated query, and invokes neither
the reformulation LLM call, nor the retriever/embedding capability, nor
grounded generation: the greeting check runs before reformulation and
retrieval. -/
theorem c1_greeting_short_circuit (env : Env) (hist : List Exchange)
    (q : String) (n : Nat) (uh : Bool)
    (hlen : (pySplit (pyTrim (pyLower q))).length ≤ 3)
    (hph : simplePhrases.any
      (fun p => containsSub p (pyTrim (pyLower q))) = true) :
    (ask env hist q n uh).1 =
      .ok ({ question := q, answer := handle_greeting env q, sources := [],
             reformulated_query := none, is_greeting := true }, hist) ∧
    (ask env hist q n uh).2 =
      { reformulatorInvoked := false, retrieverInvoked := false,
        retrievalQuery := none, queryLog := [], promptQuestion := none,
        generatorInvoked := false, memoryUpdated := false } := by
  have hg : is_greeting q = true := by
    have hdef : is_greeting q =
        if (pySplit (pyTrim (pyLower q))).length ≤ 3 then
          simplePhrases.any (fun p => containsSub p (pyTrim (pyLower q)))
        else false := rfl
    rw [hdef, if_pos hlen]
    exact hph
  rw [ask_greeting_eq env hist q n uh hg]
  exact ⟨rfl, rfl⟩

/-- C1 witness: the greeting "Bonjour !" at the healthy stub environment. -/
theorem c1_greeting_short_circuit_witness :
    ((pySplit (pyTrim (pyLower "Bonjour !"))).length ≤ 3 ∧
     simplePhrases.any
       (fun p => containsSub p (pyTrim (pyLower "Bonjour !"))) = true) ∧
    ((ask env0 [] "Bonjour !" 3 true).1 =
      .ok ({ question := "Bonjour !",
             answer := handle_greeting env0 "Bonjour !", sources := [],
             reformulated_query := none, is_greeting := true }, []) ∧
     (ask env0 [] "Bonjour !" 3 true).2 =
      { reformulatorInvoked := false, retrieverInvoked := false,
        retrievalQuery := none, queryLog := [], promptQuestion := none,
        generatorInvoked := false, memoryUpdated := false }) :=
  ⟨⟨by decide, by decide⟩,
   c1_greeting_short_circuit env0 [] "Bonjour !" 3 true (by decide) (by decide)⟩

/-- C2: when the category-filtered index query of `retrieve_documents`
fails, the retriever retries exactly once, without the category filter and
requesting exactly `n_results` results; if that retry also fails the failure
propagates to the caller and is never masked as an (empty) result set. -/
theorem c2_retrieval_retry (env : Env) (q : String) (k : Nat)
    (cf : Option String) (c e1 : String)
    (hw : whereFilterOf q cf = some c)
    (h1 : env.collectionQuery (k * 2) (some c) = .error e1) :
    (retrieve_documents env q k cf).2 = [(k * 2, some c), (k, none)] ∧
    (∀ hits, env.collectionQuery k none = .ok hits →
      (retrieve_documents env q k cf).1 = .ok (formatHits hits)) ∧
    (∀ e2, env.collectionQuery k none = .error e2 →
      (retrieve_documents env q k cf).1 = .error e2 ∧
      ∀ docs, (retrieve_documents env q k cf).1 ≠ .ok docs) := by
  have hd : retrieve_documents env q k cf =
      match env.collectionQuery k none with
      | .ok hits =>
          (.ok (formatHits hits), [(k * 2, some c), (k, none)])
      | .error e => (.error e, [(k * 2, some c), (k, none)]) := by
    unfold retrieve_documents
    rw [hw]
    dsimp only
    rw [h1]
  rcases h2 : env.collectionQuery k none with e2 | hits
  · refine ⟨by rw [hd, h2], ?_, ?_⟩
    · intro hits hh
      cases hh
    · intro e2h hh
      cases hh
      refine ⟨by rw [hd, h2], fun docs hcon => ?_⟩
      rw [hd, h2] at hcon
      cases hcon
  · refine ⟨by rw [hd, h2], ?_, ?_⟩
    · intro hits2 hh
      cases hh
      rw [hd, h2]
    · intro e2 hh
      cases hh

/-- C2 witness: a filtered query against the always-failing index, category
"reglements", k = 3. -/
theorem c2_retrieval_retry_witness :
    (whereFilterOf "Quelles sanctions ?" (some "reglements") =
       some "reglements" ∧
     envDown.collectionQuery (3 * 2) (some "reglements") =
       .error "index indisponible") ∧
    ((retrieve_documents envDown "Quelles sanctions ?" 3 (some "reglements")).2
       = [(3 * 2, some "reglements"), (3, none)] ∧
     (∀ hits, envDown.collectionQuery 3 none = .ok hits →
       (retrieve_documents envDown "Quelles sanctions ?" 3
          (some "reglements")).1 = .ok (formatHits hits)) ∧
     (∀ e2, envDown.collectionQuery 3 none = .error e2 →
       (retrieve_documents envDown "Quelles sanctions ?" 3
          (some "reglements")).1 = .error e2 ∧
       ∀ docs, (retrieve_documents envDown "Quelles sanctions ?" 3
          (some "reglements")).1 ≠ .ok docs)) :=
  ⟨⟨rfl, rfl⟩,
   c2_retrieval_retry envDown "Quelles sanctions ?" 3 (some "reglements")
     "reglements" "index indisponible" rfl rfl⟩

/-- C5: the Query Reformulator returns the question unchanged with no model
call whenever no history exists, or the question contains none of the fixed
pronoun list and has more than 5 words; accordingly `ask` reports no
reformulation call and `reformulated_query = none`. -/
theorem c5_reformulation_skip (env : Env) (hist : List Exchange) (q : String)
    (n : Nat)
    (h : hist = [] ∨
      (pronouns.any (fun p => containsSub p (pyLower q)) = false ∧
       5 < (pySplit q).length)) :
    reformulate_query env hist q = (q, false) ∧
    (ask env hist q n true).2.reformulatorInvoked = false ∧
    (∀ r h2, (ask env hist q n true).1 = .ok (r, h2) →
      r.reformulated_query = none) := by
  have h1 : reformulate_query env hist q = (q, false) := by
    rcases h with rfl | ⟨hp, hl⟩
    · rfl
    · unfold reformulate_query
      split
      · rfl
      · dsimp only
        rw [if_pos ⟨hp, hl⟩]
  have hrq : (if true && !hist.isEmpty then reformulate_query env hist q
              else (q, false)) = (q, false) := by
    split
    · exact h1
    · rfl
  refine ⟨h1, ?_⟩
  cases hgb : is_greeting q with
  | true =>
      rw [ask_greeting_eq env hist q n true hgb]
      exact ⟨rfl, fun r h2 hok => by cases hok; rfl⟩
  | false =>
      rw [ask_nongreeting_eq env hist q q false n true hgb hrq]
      rcases hr : retrieve_documents env q n none with ⟨res, log0⟩
      cases res with
      | error er =>
          refine ⟨rfl, ?_⟩
          intro r h2 hok
          cases hok
      | ok docs0 =>
          refine ⟨rfl, ?_⟩
          intro r h2 hok
          cases hok
          simp

/-- C5 witness: the 6-word, pronoun-free question of the spec's example,
both without history and with one prior exchange. -/
theorem c5_reformulation_skip_witness :
    reformulate_query env0 [] "Quand commence le semestre d'automne ?" =
      ("Quand commence le semestre d'automne ?", false) ∧
    reformulate_query env0
        [{ question := "Quand commence le semestre d'automne ?",
           answer := "Le 18 septembre." }]
        "Quand commence le semestre d'automne ?" =
      ("Quand commence le semestre d'automne ?", false) ∧
    (ask env0 [] "Quand commence le semestre d'automne ?" 3 true).2.reformulatorInvoked
      = false :=
  ⟨(c5_reformulation_skip env0 [] "Quand commence le semestre d'automne ?" 3
      (Or.inl rfl)).1,
   (c5_reformulation_skip env0
      [{ question := "Quand commence le semestre d'automne ?",
         answer := "Le 18 septembre." }]
      "Quand commence le semestre d'automne ?" 3 (Or.inr (by decide))).1,
   (c5_reformulation_skip env0 [] "Quand commence le semestre d'automne ?" 3
      (Or.inl rfl)).2.1⟩

/-- C6: when the reformulation model call fails, `reformulate_query` falls
back to the original, unmodified question, and the turn proceeds through
retrieval (with the original question) and generation: the failure never
aborts the turn and is never surfaced as an error. -/
theorem c6_reformulation_fallback (env : Env) (hist : List Exchange)
    (q : String) (n : Nat) (e : String)
    (hne : hist.isEmpty = false)
    (hskip : ¬(pronouns.any (fun p => containsSub p (pyLower q)) = false ∧
               5 < (pySplit q).length))
    (hllm : env.llmChat (reformulationPrompt (hist.getLastD default) q) 50 =
      .error e)
    (hg : is_greeting q = false) :
    reformulate_query env hist q = (q, true) ∧
    (ask env hist q n true).2.retrievalQuery = some q ∧
    (ask env hist q n true).2.retrieverInvoked = true ∧
    (∀ docs log, retrieve_documents env q n none = (.ok docs, log) →
      ∃ r h2, (ask env hist q n true).1 = .ok (r, h2) ∧
        (ask env hist q n true).2.generatorInvoked = true ∧
        r.answer = generate_answer env (generate_prompt q docs true hist) 200) := by
  have h1 : reformulate_query env hist q = (q, true) := by
    unfold reformulate_query
    split
    · next hcond => rw [hcond] at hne; cases hne
    · dsimp only
      rw [if_neg hskip, hllm]
  have hrq : (if true && !hist.isEmpty then reformulate_query env hist q
              else (q, false)) = (q, true) := by
    rw [hne, h1]
    rfl
  refine ⟨h1, ?_⟩
  rw [ask_nongreeting_eq env hist q q true n true hg hrq]
  rcases hr : retrieve_documents env q n none with ⟨res, log0⟩
  cases res with
  | error er =>
      refine ⟨rfl, rfl, ?_⟩
      intro docs log hdl
      cases hdl
  | ok docs0 =>
      refine ⟨rfl, rfl, ?_⟩
      intro docs log hdl
      cases hdl
      exact ⟨_, _, rfl, rfl, rfl⟩

/-- C6 witness: a pronoun-bearing follow-up, one prior exchange, and an LLM
that fails every call: the turn still reaches retrieval and generation. -/
theorem c6_reformulation_fallback_witness :
    reformulate_query envLlmDown
        [{ question := "Quand commence le semestre d'automne ?",
           answer := "Le 18 septembre." }]
        "Et combien de temps dure-t-il ?" =
      ("Et combien de temps dure-t-il ?", true) ∧
    (ask envLlmDown
        [{ question := "Quand commence le semestre d'automne ?",
           answer := "Le 18 septembre." }]
        "Et combien de temps dure-t-il ?" 3 true).2.retrievalQuery =
      some "Et combien de temps dure-t-il ?" :=
  ⟨(c6_reformulation_fallback envLlmDown
      [{ question := "Quand commence le semestre d'automne ?",
         answer := "Le 18 septembre." }]
      "Et combien de temps dure-t-il ?" 3 "timeout" rfl (by decide) rfl
      (by decide)).1,
   (c6_reformulation_fallback envLlmDown
      [{ question := "Quand commence le semestre d'automne ?",
         answer := "Le 18 septembre." }]
      "Et combien de temps dure-t-il ?" 3 "timeout" rfl (by decide) rfl
      (by decide)).2.1⟩

/-- C8: on a non-greeting turn with history, `ask` hands the Retriever the
reformulated query, but hands the Prompt Builder the original user-visible
question. -/
theorem c8_query_routing (env : Env) (hist : List Exchange) (q : String)
    (n : Nat) (hg : is_greeting q = false) (hne : hist.isEmpty = false) :
    (ask env hist q n true).2.retrievalQuery =
      some (reformulate_query env hist q).1 ∧
    (∀ r h2, (ask env hist q n true).1 = .ok (r, h2) →
      (ask env hist q n true).2.promptQuestion = some q ∧
      ∃ docs log,
        retrieve_documents env (reformulate_query env hist q).1 n none =
          (.ok docs, log) ∧
        r.answer = generate_answer env (generate_prompt q docs true hist) 200) := by
  rcases hq : reformulate_query env hist q with ⟨sq, b⟩
  have hrq : (if true && !hist.isEmpty then reformulate_query env hist q
              else (q, false)) = (sq, b) := by
    rw [hne, hq]
    rfl
  dsimp only
  rw [ask_nongreeting_eq env hist q sq b n true hg hrq]
  rcases hr : retrieve_documents env sq n none with ⟨res, log0⟩
  cases res with
  | error er =>
      refine ⟨rfl, ?_⟩
      intro r h2 hok
      cases hok
  | ok docs0 =>
      refine ⟨rfl, ?_⟩
      intro r h2 hok
      cases hok
      exact ⟨rfl, docs0, log0, rfl, rfl⟩

/-- C8 witness: a pronoun-bearing follow-up with one prior exchange and an
LLM stub that visibly rewrites the question. -/
theorem c8_query_routing_witness :
    (ask envRewrite
        [{ question := "Quand commence le semestre d'automne ?",
           answer := "Le 18 septembre." }]
        "Et combien de temps dure-t-il ?" 3 true).2.retrievalQuery =
      some (reformulate_query envRewrite
        [{ question := "Quand commence le semestre d'automne ?",
           answer := "Le 18 septembre." }]
        "Et combien de temps dure-t-il ?").1 :=
  (c8_query_routing envRewrite
    [{ question := "Quand commence le semestre d'automne ?",
       answer := "Le 18 septembre." }]
    "Et combien de temps dure-t-il ?" 3 (by decide) rfl).1

/-- C9 counterexample: a non-greeting turn with `use_history = true` whose
retrieval fails does not mutate Conversation Memory — against the claim's
"if and only if", the turn aborts with the retrieval error and no memory
update runs. -/
theorem c9_memory_update_counterexample :
    is_greeting "Quelles sont les règles d'absence pour les étudiants ?"
      = false ∧
    (ask envDown []
        "Quelles sont les règles d'absence pour les étudiants ?" 3 true).1 =
      .error "index indisponible" ∧
    (ask envDown []
        "Quelles sont les règles d'absence pour les étudiants ?" 3
        true).2.memoryUpdated = false :=
  ⟨by decide, rfl, by decide⟩

/-- C9 (amended): the memory-update step runs only on a non-greeting turn
with `use_history = true`; on a completed (non-erroring) turn it runs
exactly then, appending the exchange, while a greeting turn terminates at
the canned reply leaving Conversation Memory unchanged.  A turn aborted by
retrieval failure performs no memory update either. -/
theorem c9_memory_update (env : Env) (hist : List Exchange) (q : String)
    (n : Nat) (uh : Bool) :
    ((ask env hist q n uh).2.memoryUpdated = true →
      is_greeting q = false ∧ uh = true) ∧
    (is_greeting q = true →
      (ask env hist q n uh).1 =
        .ok ({ question := q, answer := handle_greeting env q, sources := [],
               reformulated_query := none, is_greeting := true }, hist) ∧
      (ask env hist q n uh).2.memoryUpdated = false) ∧
    (∀ r h2, (ask env hist q n uh).1 = .ok (r, h2) →
      ((ask env hist q n uh).2.memoryUpdated = (!(is_greeting q) && uh)) ∧
      (is_greeting q = true → h2 = hist) ∧
      (is_greeting q = false → uh = true →
        h2 = add_to_history hist q r.answer)) := by
  cases hgb : is_greeting q with
  | true =>
      rw [ask_greeting_eq env hist q n uh hgb]
      refine ⟨?_, ?_, ?_⟩
      · intro hmem
        cases hmem
      · intro hg2
        exact ⟨rfl, rfl⟩
      · intro r h2 hok
        cases hok
        refine ⟨rfl, ?_, ?_⟩
        · intro hg2
          rfl
        · intro hcon huh
          cases hcon
  | false =>
      rcases hp : (if uh && !hist.isEmpty then reformulate_query env hist q
                   else (q, false)) with ⟨sq, b⟩
      rw [ask_nongreeting_eq env hist q sq b n uh hgb hp]
      rcases hr : retrieve_documents env sq n none with ⟨res, log0⟩
      cases res with
      | error er =>
          refine ⟨?_, ?_, ?_⟩
          · intro hmem
            cases hmem
          · intro hcon
            cases hcon
          · intro r h2 hok
            cases hok
      | ok docs0 =>
          refine ⟨?_, ?_, ?_⟩
          · intro hmem
            exact ⟨rfl, hmem⟩
          · intro hcon
            cases hcon
          · intro r h2 hok
            cases hok
            refine ⟨rfl, ?_, ?_⟩
            · intro hcon
              cases hcon
            · intro hg2 huh
              rw [huh]
              rfl

/-- C9 witness: a completed non-greeting turn with history enabled indeed
updates the memory, and the amended theorem's only-if direction applies. -/
theorem c9_memory_update_witness :
    (ask env0 [] "Comment obtenir une attestation de travail ?" 3
      true).2.memoryUpdated = true ∧
    is_greeting "Comment obtenir une attestation de travail ?" = false :=
  ⟨by decide,
   ((c9_memory_update env0 [] "Comment obtenir une attestation de travail ?"
      3 true).1 (by decide)).1⟩

/-- C10: with `use_history = false`, a non-greeting turn never invokes the
Reformulator and returns `reformulated_query = none`, whatever the state of
Conversation Memory. -/
theorem c10_use_history_false_skips_reformulation (env : Env)
    (hist : List Exchange) (q : String) (n : Nat)
    (hg : is_greeting q = false) :
    (ask env hist q n false).2.reformulatorInvoked = false ∧
    (∀ r h2, (ask env hist q n false).1 = .ok (r, h2) →
      r.reformulated_query = none) := by
  rw [ask_nongreeting_eq env hist q q false n false hg rfl]
  rcases hr : retrieve_documents env q n none with ⟨res, log0⟩
  cases res with
  | error er =>
      refine ⟨rfl, ?_⟩
      intro r h2 hok
      cases hok
  | ok docs0 =>
      refine ⟨rfl, ?_⟩
      intro r h2 hok
      cases hok
      simp

/-- C10 witness: non-empty memory, `use_history = false`. -/
theorem c10_use_history_false_skips_reformulation_witness :
    (ask env0
        [{ question := "Quand commence le semestre d'automne ?",
           answer := "Le 18 septembre." }]
        "Et combien de temps dure-t-il ?" 3 false).2.reformulatorInvoked
      = false :=
  (c10_use_history_false_skips_reformulation env0
    [{ question := "Quand commence le semestre d'automne ?",
       answer := "Le 18 septembre." }]
    "Et combien de temps dure-t-il ?" 3 (by decide)).1

end StudentAssistant
